import Mathlib

/-
Verification of the mpv-anilist-updater core logic (anilistUpdater/anilistUpdater.py).

A shallow embedding of the pure decision logic of the updater:
  * the absolute-numbering resolver `find_season_and_episode`,
  * the directory-keyed resolution cache (`check_and_clean_cache`, `cache_to_file`,
    and the offset fast path inlined in `handle_filename`),
  * the progress-update decision procedure `update_episode_count`,
  * the title-trust heuristic of `parse_filename`.

Python ints are modelled as `Int` (episode numbers, progress values, timestamps);
catalog episode counts are modelled as `Option Nat` (the remote service reports a
non-negative count or null).  Status values are the AniList status strings.
Network mutations are modelled through an oracle `api : Mutation -> Option SavedEntry`
(`none` models a non-success HTTP response); `echoApi` is the server model that
applies exactly the requested values, which is what the SaveMediaListEntry call
returns on success.  Exceptions raised by the Python code are modelled as `Except`
error values.
-/

namespace AniListUpd

/-- One media-list entry as returned inside a search result
(`mediaListEntry { status progress }`). -/
structure MediaListEntry where
  status : Option String
  progress : Option Int
deriving DecidableEq

/-- One related catalog entry (a "season") as consumed by `find_season_and_episode`.
Fields used only by `filter_valid_seasons` (duration, format, airing status,
season/year sort keys) are omitted: the resolver claims quantify over an arbitrary
already-filtered, already-sorted list. -/
structure Season where
  id : Option Nat
  titleRomaji : Option String
  episodes : Option Nat
  mediaListEntry : Option MediaListEntry
deriving DecidableEq

/-- The `SeasonEpisodeInfo` dataclass. -/
structure SeasonEpisodeInfo where
  season_id : Option Nat
  season_title : Option String
  progress : Option Int
  episodes : Option Nat
  relative_episode : Option Int
deriving DecidableEq

/-- The `AnimeInfo` dataclass. -/
structure AnimeInfo where
  anime_id : Option Nat
  anime_name : Option String
  current_progress : Option Int
  total_episodes : Option Nat
  file_progress : Option Int
  current_status : Option String
deriving DecidableEq

/-- The configuration options consulted by `update_episode_count`. -/
structure Config where
  set_completed_to_rewatching_on_first_episode : Bool
  update_progress_when_rewatching : Bool
  set_to_completed_after_last_episode_current : Bool
  set_to_completed_after_last_episode_rewatching : Bool
  add_entry_if_missing : Bool
deriving DecidableEq

/-- The variables of one SaveMediaListEntry mutation request
(`{"mediaId": .., "progress": .., "status": ..}`; a `none` status means the
status key is absent from the request). -/
structure Mutation where
  mediaId : Option Nat
  progress : Option Int
  status : Option String
deriving DecidableEq

/-- The server-applied values read back from a successful SaveMediaListEntry
response. -/
structure SavedEntry where
  status : Option String
  progress : Option Int
deriving DecidableEq

/-- The exceptions `update_episode_count` can raise, and the add/update failure
outcomes. -/
inductive UpdateErr where
  | anime_not_found
  | add_failed
  | not_on_list
  | not_new (fp cp : Int)
  | not_modifiable (st : Option String)
  | update_failed
deriving DecidableEq

/-- The script's action argument. -/
inductive Action where
  | update
  | launch
deriving DecidableEq

/-- A server that applies exactly the requested progress and status
(the success case of SaveMediaListEntry). -/
def echoApi : Mutation → Option SavedEntry :=
  fun m => some ⟨m.status, m.progress⟩

/-- `season.get("episodes", 12) if season.get("episodes") else 12`:
a null (or zero, falsy) episode count defaults to 12 during accumulation. -/
def season_episodes (s : Season) : Nat :=
  match s.episodes with
  | some (n + 1) => n + 1
  | _ => 12

/-- The accumulation loop of `find_season_and_episode`: walk the list keeping the
running total `accumulated` of episode counts; the first season whose count
reaches the target absolute episode is returned with the relative episode
`absolute_episode - accumulated`. -/
def find_season_and_episode_aux (absolute_episode : Int) :
    Int → List Season → SeasonEpisodeInfo
  | _, [] => ⟨none, none, none, none, none⟩
  | accumulated, s :: rest =>
    if accumulated + (season_episodes s : Int) ≥ absolute_episode then
      ⟨s.id, s.titleRomaji, s.mediaListEntry.bind MediaListEntry.progress,
        s.episodes, some (absolute_episode - accumulated)⟩
    else
      find_season_and_episode_aux absolute_episode
        (accumulated + (season_episodes s : Int)) rest

/-- `find_season_and_episode(seasons, absolute_episode)`. -/
def find_season_and_episode (seasons : List Season) (absolute_episode : Int) :
    SeasonEpisodeInfo :=
  find_season_and_episode_aux absolute_episode 0 seasons

/-- Sum of the effective (defaulted) episode counts of a season list. -/
def total_episode_sum (seasons : List Season) : Nat :=
  (seasons.map season_episodes).sum

/-- One cache entry, as written by `cache_to_file`.  The stored string
`relative_progress = "L->R"` is modelled by its two parsed integers
`relative_left` (absolute episode at cache time) and `relative_right`
(relative episode at cache time). -/
structure CacheEntry where
  guessed_name : String
  anime_id : Option Nat
  current_progress : Option Int
  relative_left : Int
  relative_right : Int
  total_episodes : Option Nat
  current_status : Option String
  ttl : Int
deriving DecidableEq

/-- `CACHE_REFRESH_RATE = 24 * 60 * 60`. -/
def CACHE_REFRESH_RATE : Int := 24 * 60 * 60

/-- `check_and_clean_cache(path, guessed_name)`: purge every entry whose `ttl`
has passed (`v.get("ttl", 0) < now`), then return the entry stored under the
directory hash only when its `guessed_name` equals the current guess.
The cache file is modelled as an association list keyed by the directory hash;
returns the purged cache together with the looked-up entry. -/
def check_and_clean_cache (cache : List (String × CacheEntry)) (now : Int)
    (dir_hash : String) (guessed_name : String) :
    List (String × CacheEntry) × Option CacheEntry :=
  let cleaned := cache.filter fun kv => ! decide (kv.2.ttl < now)
  match cleaned.lookup dir_hash with
  | some e => if e.guessed_name = guessed_name then (cleaned, some e) else (cleaned, none)
  | none => (cleaned, none)

/-- `cache_to_file(path, guessed_name, absolute_progress, result)`: upsert the
entry for this directory with `ttl = now + CACHE_REFRESH_RATE` and
`relative_progress = f"{absolute_progress}->{result.file_progress}"`.
(The source interpolates the integer into a string; on every path that writes
the cache the update result carries an integer `file_progress`, so the
`getD 0` default is never the interpolated value on reachable states.) -/
def cache_to_file (cache : List (String × CacheEntry)) (dir_hash : String)
    (guessed_name : String) (absolute_progress : Int) (result : AnimeInfo)
    (now : Int) : List (String × CacheEntry) :=
  let entry : CacheEntry :=
    ⟨guessed_name, result.anime_id, result.current_progress, absolute_progress,
      result.file_progress.getD 0, result.total_episodes, result.current_status,
      now + CACHE_REFRESH_RATE⟩
  (dir_hash, entry) :: cache.filter fun kv => decide (kv.1 ≠ dir_hash)

/-- The offset fast path inlined in `handle_filename`:
`offset = int(left) - int(right)`, `relative_episode = file_episode - offset`,
accepted only when `1 <= relative_episode <= (total_episodes or 0)`, in which
case the `AnimeInfo` is reconstructed from the cache entry. -/
def cache_fast_path (entry : CacheEntry) (file_episode : Int) : Option AnimeInfo :=
  let offset := entry.relative_left - entry.relative_right
  let relative_episode := file_episode - offset
  if 1 ≤ relative_episode ∧ relative_episode ≤ ((entry.total_episodes.getD 0 : Nat) : Int) then
    some ⟨entry.anime_id, some entry.guessed_name, entry.current_progress,
      entry.total_episodes, some relative_episode, entry.current_status⟩
  else
    none

/-- `update_episode_count(result)` for a given action and API oracle.
Returns the list of SaveMediaListEntry requests issued (in order) together with
either the returned `AnimeInfo` or the raised exception.  Transcribed branch by
branch from the source:
  * `anime_id is None` raises;
  * action `launch` opens a browser and returns the result unchanged;
  * no progress and no status: add-if-missing path or raise;
  * COMPLETED + episode 1 + restart option: two mutations, only the second
    response is consulted, the result is hard-coded to REPEATING / progress 1
    with the server progress;
  * REPEATING + rewatch option: status stays REPEATING, no staleness check;
  * CURRENT/PLANNING: refuse when the candidate is truthy and not newer;
  * otherwise raise (not modifiable);
  * finally override to COMPLETED on the last episode per options, issue one
    mutation and return the server-applied progress and status. -/
def update_episode_count (cfg : Config) (action : Action)
    (api : Mutation → Option SavedEntry) (result : AnimeInfo) :
    List Mutation × Except UpdateErr AnimeInfo :=
  match result.anime_id with
  | none => ([], .error .anime_not_found)
  | some anime_id =>
    if action = .launch then ([], .ok result)
    else if result.current_progress = none ∧ result.current_status = none then
      if cfg.add_entry_if_missing then
        let m : Mutation := ⟨some anime_id, result.file_progress, some "CURRENT"⟩
        match api m with
        | some _ =>
          ([m], .ok ⟨some anime_id, result.anime_name, result.file_progress,
            result.total_episodes, result.file_progress, some "CURRENT"⟩)
        | none => ([m], .error .add_failed)
      else ([], .error .not_on_list)
    else if result.current_status = some "COMPLETED" ∧ result.file_progress = some 1 ∧
        cfg.set_completed_to_rewatching_on_first_episode then
      let m1 : Mutation := ⟨some anime_id, some 0, some "REPEATING"⟩
      let m2 : Mutation := ⟨some anime_id, some 1, none⟩
      match api m2 with
      | some saved =>
        ([m1, m2], .ok ⟨some anime_id, result.anime_name, saved.progress,
          result.total_episodes, some 1, some "REPEATING"⟩)
      | none => ([m1, m2], .error .update_failed)
    else
      let proceed := fun (status_to_set : String) =>
        let status_final :=
          if result.file_progress = result.total_episodes.map (fun n => (n : Int)) ∧
              ((result.current_status = some "CURRENT" ∧
                cfg.set_to_completed_after_last_episode_current) ∨
               (result.current_status = some "REPEATING" ∧
                cfg.set_to_completed_after_last_episode_rewatching)) then
            "COMPLETED"
          else status_to_set
        let m : Mutation := ⟨some anime_id, result.file_progress, some status_final⟩
        match api m with
        | some saved =>
          ([m], .ok ⟨some anime_id, result.anime_name, saved.progress,
            result.total_episodes, result.file_progress, saved.status⟩)
        | none => ([m], .error .update_failed)
      if result.current_status = some "REPEATING" ∧ cfg.update_progress_when_rewatching then
        proceed "REPEATING"
      else if result.current_status = some "CURRENT" ∨ result.current_status = some "PLANNING" then
        match result.file_progress, result.current_progress with
        | some f, some p =>
          if f ≠ 0 ∧ f ≤ p then ([], .error (.not_new f p)) else proceed "CURRENT"
        | _, _ => proceed "CURRENT"
      else ([], .error (.not_modifiable result.current_status))

/-- Invocation-level failures of `handle_filename`. -/
inductive HandleErr where
  | resolve_raised
  | update_error (e : UpdateErr)
deriving DecidableEq

deriving instance DecidableEq for Except

/-- Observable trace of one `handle_filename` invocation: whether the cached
offset fast path produced the resolution, how many full (non-cached)
resolutions ran, the mutations issued, the final cache contents, and the
outcome. -/
structure HandleTrace where
  used_cache_fast_path : Bool
  fresh_resolutions : Nat
  mutations : List Mutation
  final_cache : List (String × CacheEntry)
  outcome : Except HandleErr AnimeInfo
deriving DecidableEq

/-- `handle_filename(filename)` for the `update` action.
`fresh_resolve` is the oracle for `get_anime_info_and_progress` (`none` models
a raised exception).  The source reads the cache, takes the offset fast path
when the derived relative episode is in range, otherwise performs a full
resolution, then calls `update_episode_count`; an exception raised there
propagates (no handler), and the cache is rewritten only after a successful
update whose `current_progress` is not null.  (The `launch` action only opens a
browser and is not modelled.) -/
def handle_filename (cfg : Config) (fresh_resolve : Option AnimeInfo)
    (api : Mutation → Option SavedEntry) (cache : List (String × CacheEntry))
    (now : Int) (dir_hash : String) (guessed_name : String) (file_episode : Int) :
    HandleTrace :=
  let cc := check_and_clean_cache cache now dir_hash guessed_name
  let after := fun (used : Bool) (n : Nat) (info : AnimeInfo) =>
    let uo := update_episode_count cfg .update api info
    match uo.2 with
    | .error e => ⟨used, n, uo.1, cc.1, .error (.update_error e)⟩
    | .ok res =>
      if res.current_progress ≠ none then
        ⟨used, n, uo.1,
          cache_to_file cc.1 dir_hash guessed_name file_episode res now, .ok res⟩
      else ⟨used, n, uo.1, cc.1, .ok res⟩
  match cc.2 with
  | some entry =>
    match cache_fast_path entry file_episode with
    | some info => after true 0 info
    | none =>
      match fresh_resolve with
      | some info => after false 1 info
      | none => ⟨false, 1, [], cc.1, .error .resolve_raised⟩
  | none =>
    match fresh_resolve with
    | some info => after false 1 info
    | none => ⟨false, 1, [], cc.1, .error .resolve_raised⟩

/-- The field-order bookkeeping of `parse_filename`:
`keys.index("episode") if "episode" in guess else 1`. -/
def episode_index (keys : List String) : Int :=
  if "episode" ∈ keys then (keys.indexOf "episode" : Int) else 1

/-- `keys.index("season") if "season" in guess else -1`. -/
def season_index (keys : List String) : Int :=
  if "season" ∈ keys then (keys.indexOf "season" : Int) else -1

/-- `title_in_filename = "title" in guess and (episode_index > 0 and
(season_index > 0 or season_index == -1))`. -/
def title_in_filename (keys : List String) : Bool :=
  decide ("title" ∈ keys ∧ (episode_index keys > 0 ∧
    (season_index keys > 0 ∨ season_index keys = -1)))

/-- Modelled from the claim's words (C9): the filename's title is trusted iff
the guess contains a title, the episode field's position in the detected field
order is greater than 0, and either no season field was detected or the season
field's position is also greater than 0.  (Named `claim...` because it follows
the claim sentence, to be compared with `title_in_filename` from the source.) -/
def claimTitleTrusted (keys : List String) : Prop :=
  "title" ∈ keys ∧ ("episode" ∈ keys ∧ 0 < keys.indexOf "episode") ∧
    ("season" ∉ keys ∨ 0 < keys.indexOf "season")

/-- The amended trust condition: identical to the claim's, except that the
episode position defaults to 1 (hence passes the check) when no episode field
was detected. -/
def amendedTitleTrusted (keys : List String) : Prop :=
  "title" ∈ keys ∧ ("episode" ∉ keys ∨ 0 < keys.indexOf "episode") ∧
    ("season" ∉ keys ∨ 0 < keys.indexOf "season")

instance (keys : List String) : Decidable (claimTitleTrusted keys) := by
  unfold claimTitleTrusted
  infer_instance

instance (keys : List String) : Decidable (amendedTitleTrusted keys) := by
  unfold amendedTitleTrusted
  infer_instance

end AniListUpd

namespace AniListUpd

/-- Every effective (defaulted) episode count is positive. -/
lemma one_le_season_episodes (s : Season) : 1 ≤ season_episodes s := by
  rcases hs : s.episodes with _ | (_ | n) <;> simp [season_episodes, hs]

/-- A non-null, positive stored episode count is used as-is by the walk. -/
lemma season_episodes_of_some (s : Season) (c : Nat) (hc : s.episodes = some c)
    (h1 : 1 ≤ c) : season_episodes s = c := by
  rcases c with _ | n
  · omega
  · simp [season_episodes, hc]

/-- The relative episode produced by the accumulation walk never exceeds the
target minus the starting accumulator. -/
lemma find_aux_rel_ge (seasons : List Season) : ∀ (acc a r : Int),
    (find_season_and_episode_aux a acc seasons).relative_episode = some r →
    acc ≤ a - r := by
  induction seasons with
  | nil =>
    intro acc a r h
    simp [find_season_and_episode_aux] at h
  | cons s rest ih =>
    intro acc a r h
    by_cases hc : acc + (season_episodes s : Int) ≥ a
    · simp only [find_season_and_episode_aux, if_pos hc] at h
      simp at h
      omega
    · simp only [find_season_and_episode_aux, if_neg hc] at h
      have hrec := ih (acc + (season_episodes s : Int)) a r h
      have hpos : (1 : Int) ≤ (season_episodes s : Int) := by
        exact_mod_cast one_le_season_episodes s
      omega

/-- Offset round-trip at an arbitrary point of the walk. -/
lemma roundtrip_aux (seasons : List Season) : ∀ (acc a e r : Int) (c : Nat),
    (find_season_and_episode_aux a acc seasons).relative_episode = some r →
    (find_season_and_episode_aux a acc seasons).episodes = some c →
    1 ≤ e - (a - r) → e - (a - r) ≤ (c : Int) →
    find_season_and_episode_aux e acc seasons =
      { find_season_and_episode_aux a acc seasons with
          relative_episode := some (e - (a - r)) } := by
  induction seasons with
  | nil =>
    intro acc a e r c h1 h2 h3 h4
    simp [find_season_and_episode_aux] at h1
  | cons s rest ih =>
    intro acc a e r c h1 h2 h3 h4
    by_cases hc : acc + (season_episodes s : Int) ≥ a
    · have h1' : a - acc = r := by
        simp only [find_season_and_episode_aux, if_pos hc] at h1
        simpa using h1
      have h2' : s.episodes = some c := by
        simp only [find_season_and_episode_aux, if_pos hc] at h2
        simpa using h2
      have hc1 : 1 ≤ c := by
        have : (1 : Int) ≤ (c : Int) := le_trans h3 h4
        exact_mod_cast this
      have hse : season_episodes s = c := season_episodes_of_some s c h2' hc1
      have hacc : a - r = acc := by omega
      have hce : acc + (season_episodes s : Int) ≥ e := by
        rw [hse]
        omega
      simp only [find_season_and_episode_aux, if_pos hc, if_pos hce]
      simp
      omega
    · simp only [find_season_and_episode_aux, if_neg hc] at h1 h2
      have hrel := find_aux_rel_ge rest (acc + (season_episodes s : Int)) a r h1
      have hne : ¬ acc + (season_episodes s : Int) ≥ e := by omega
      simp only [find_season_and_episode_aux, if_neg hc, if_neg hne]
      exact ih (acc + (season_episodes s : Int)) a e r c h1 h2 h3 h4

/-- Claim C3: for any cached resolution (absolute episode `a` resolved to
relative episode `r` with a stored total of `c` episodes) and any file episode
`e` whose offset-derived relative episode `e - (a - r)` lies in
`[1, c]` (the cached entry's valid season range), the offset fast path and a
fresh resolution against the same season list agree: the fresh resolution
returns the same season with relative episode `e - (a - r)`. -/
theorem cache_offset_roundtrip (seasons : List Season) (a e r : Int) (c : Nat)
    (h1 : (find_season_and_episode seasons a).relative_episode = some r)
    (h2 : (find_season_and_episode seasons a).episodes = some c)
    (h3 : 1 ≤ e - (a - r)) (h4 : e - (a - r) ≤ (c : Int)) :
    find_season_and_episode seasons e =
      { find_season_and_episode seasons a with
          relative_episode := some (e - (a - r)) } :=
  roundtrip_aux seasons 0 a e r c h1 h2 h3 h4

/-- Witness for C3: seasons of 12 episodes each; absolute 19 resolves to season
2 relative 7; the offset fast path for file episode 20 agrees with fresh
resolution (relative 8). -/
theorem cache_offset_roundtrip_witness :
    find_season_and_episode
        [⟨some 1, some "S1", some 12, some ⟨some "COMPLETED", some 12⟩⟩,
         ⟨some 2, some "S2", some 12, some ⟨some "CURRENT", some 6⟩⟩] 20 =
      { find_season_and_episode
          [⟨some 1, some "S1", some 12, some ⟨some "COMPLETED", some 12⟩⟩,
           ⟨some 2, some "S2", some 12, some ⟨some "CURRENT", some 6⟩⟩] 19 with
          relative_episode := some (20 - (19 - 7)) } :=
  cache_offset_roundtrip _ 19 20 7 12 (by decide) (by decide) (by decide) (by decide)

/-- Boundary behaviour at an arbitrary point of the walk. -/
lemma boundary_aux (pre : List Season) : ∀ (acc : Int) (s : Season) (post : List Season),
    find_season_and_episode_aux
        (acc + (total_episode_sum pre : Int) + (season_episodes s : Int)) acc
        (pre ++ s :: post) =
      ⟨s.id, s.titleRomaji, s.mediaListEntry.bind MediaListEntry.progress,
        s.episodes, some ((season_episodes s : Nat) : Int)⟩ := by
  induction pre with
  | nil =>
    intro acc s post
    simp only [List.nil_append, find_season_and_episode_aux]
    rw [if_pos (by simp [total_episode_sum])]
    simp [total_episode_sum]
  | cons p pre ih =>
    intro acc s post
    have hs1 : 1 ≤ season_episodes s := one_le_season_episodes s
    have hsum : (total_episode_sum (p :: pre) : Int) =
        (season_episodes p : Int) + (total_episode_sum pre : Int) := by
      simp [total_episode_sum]
    simp only [List.cons_append, find_season_and_episode_aux]
    rw [if_neg (by rw [hsum]; have : (0:Int) ≤ (total_episode_sum pre : Int) := Int.ofNat_nonneg _; omega)]
    have := ih (acc + (season_episodes p : Int)) s post
    rw [hsum]
    have harg : acc + ((season_episodes p : Int) + (total_episode_sum pre : Int)) +
        (season_episodes s : Int) =
        acc + (season_episodes p : Int) + (total_episode_sum pre : Int) +
        (season_episodes s : Int) := by ring
    rw [harg]
    exact this

/-- Claim C4: an absolute episode exactly equal to the accumulated episode
total through season `k` (here the season `s` following the prefix `pre`)
resolves to season `k` with relative episode equal to its (effective) episode
count, its final episode, and not to the next season with relative episode 0. -/
theorem season_boundary (pre : List Season) (s : Season) (post : List Season) :
    find_season_and_episode (pre ++ s :: post)
        ((total_episode_sum pre : Int) + (season_episodes s : Int)) =
      ⟨s.id, s.titleRomaji, s.mediaListEntry.bind MediaListEntry.progress,
        s.episodes, some ((season_episodes s : Nat) : Int)⟩ := by
  have := boundary_aux pre 0 s post
  unfold find_season_and_episode
  simpa using this

/-- Claim C5: a season whose stored episode count is null is counted as exactly
12 episodes by the accumulation walk, at any point of the walk: the target is
matched here exactly when the running total plus 12 reaches it, and otherwise
the walk continues with the accumulator advanced by 12. -/
theorem resolver_defaults_null_to_twelve (s : Season) (rest : List Season)
    (acc e : Int) (h : s.episodes = none) :
    find_season_and_episode_aux e acc (s :: rest) =
      if acc + 12 ≥ e then
        ⟨s.id, s.titleRomaji, s.mediaListEntry.bind MediaListEntry.progress,
          none, some (e - acc)⟩
      else find_season_and_episode_aux e (acc + 12) rest := by
  have h12 : season_episodes s = 12 := by simp [season_episodes, h]
  simp only [find_season_and_episode_aux, h12, h]
  norm_num

/-- Witness for C5: a single unknown-length season matches absolute episode 5
with relative episode 5 because it is counted as 12 episodes. -/
theorem resolver_defaults_null_to_twelve_witness :
    find_season_and_episode_aux 5 0 [⟨some 3, some "S3", none, none⟩] =
      if (0 : Int) + 12 ≥ 5 then
        ⟨some 3, some "S3", none, none, some (5 - 0)⟩
      else find_season_and_episode_aux 5 (0 + 12) [] :=
  resolver_defaults_null_to_twelve ⟨some 3, some "S3", none, none⟩ [] 0 5 rfl

/-- Walk exhaustion at an arbitrary accumulator. -/
lemma exhaust_aux (seasons : List Season) : ∀ (acc e : Int),
    acc + (total_episode_sum seasons : Int) < e →
    find_season_and_episode_aux e acc seasons = ⟨none, none, none, none, none⟩ := by
  induction seasons with
  | nil =>
    intro acc e h
    simp [find_season_and_episode_aux]
  | cons s rest ih =>
    intro acc e h
    have hsum : (total_episode_sum (s :: rest) : Int) =
        (season_episodes s : Int) + (total_episode_sum rest : Int) := by
      simp [total_episode_sum]
    rw [hsum] at h
    have hnn : (0:Int) ≤ (total_episode_sum rest : Int) := Int.ofNat_nonneg _
    simp only [find_season_and_episode_aux]
    rw [if_neg (by omega)]
    exact ih (acc + (season_episodes s : Int)) e (by omega)

/-- Claim C6: when the accumulated episode total of the whole list is below the
target absolute episode, the resolver returns the all-null no-match result (it
never falls back to an episode of the last entry), and the update engine
rejects any `AnimeInfo` carrying that null identity with an
anime-not-found failure and no mutation. -/
theorem resolver_exhaustion_all_null (seasons : List Season) (e : Int)
    (h : (total_episode_sum seasons : Int) < e) :
    find_season_and_episode seasons e = ⟨none, none, none, none, none⟩ ∧
    ∀ (cfg : Config) (api : Mutation → Option SavedEntry) nm cp te fp st,
      update_episode_count cfg .update api ⟨none, nm, cp, te, fp, st⟩ =
        ([], .error .anime_not_found) := by
  constructor
  · exact exhaust_aux seasons 0 e (by omega)
  · intro cfg api nm cp te fp st
    rfl

/-- Witness for C6: one 12-episode season cannot contain absolute episode 13. -/
theorem resolver_exhaustion_all_null_witness :
    find_season_and_episode
        [⟨some 1, some "S1", some 12, some ⟨some "COMPLETED", some 12⟩⟩] 13 =
      ⟨none, none, none, none, none⟩ ∧
    update_episode_count ⟨false, false, false, false, false⟩ .update echoApi
        ⟨none, some "S1", some 12, some 12, some 13, some "CURRENT"⟩ =
      ([], .error .anime_not_found) := by
  have h := resolver_exhaustion_all_null
    [⟨some 1, some "S1", some 12, some ⟨some "COMPLETED", some 12⟩⟩] 13 (by decide)
  exact ⟨h.1, h.2 ⟨false, false, false, false, false⟩ echoApi (some "S1") (some 12)
    (some 12) (some 13) (some "CURRENT")⟩

end AniListUpd

namespace AniListUpd

/-- Claim C1 counterexample: a successful update for an entry in REPEATING
status (with the rewatch option enabled) reports a progress of 3 after a
current progress of 9 — the reported progress decreased across a successful
update for the same catalog id 5. -/
theorem rewatch_progress_decrease_counterexample :
    update_episode_count ⟨false, true, false, false, false⟩ .update echoApi
        ⟨some 5, some "x", some 9, some 12, some 3, some "REPEATING"⟩ =
      ([⟨some 5, some 3, some "REPEATING"⟩],
       .ok ⟨some 5, some "x", some 3, some 12, some 3, some "REPEATING"⟩) ∧
    (3 : Int) < 9 :=
  ⟨rfl, by norm_num⟩

/-- Claim C1 (amended): for an entry in CURRENT or PLANNING status with known
current progress `p` and a positive candidate episode `f`: if `f ≤ p` the
update is refused with the not-new failure and no mutation is issued (for any
server), and any successful update (under the server model that applies the
requested values) reports progress exactly `f`, which is strictly greater
than `p`; so for CURRENT/PLANNING entries the reported progress is
monotonically non-decreasing. -/
theorem current_planning_monotone (cfg : Config) (api : Mutation → Option SavedEntry)
    (info : AnimeInfo) (aid : Nat) (p f : Int)
    (hid : info.anime_id = some aid)
    (hst : info.current_status = some "CURRENT" ∨ info.current_status = some "PLANNING")
    (hp : info.current_progress = some p)
    (hf : info.file_progress = some f)
    (hfpos : 0 < f) :
    (f ≤ p → update_episode_count cfg .update api info = ([], .error (.not_new f p))) ∧
    (∀ ms out, update_episode_count cfg .update echoApi info = (ms, .ok out) →
      out.current_progress = some f ∧ p < f) := by
  obtain ⟨a, nm, cp, te, fp, st⟩ := info
  simp only at hid hp hf
  subst hid hp hf
  have hf0 : f ≠ 0 := by omega
  rcases hst with h | h <;> simp only at h <;> subst h
  all_goals {
    constructor
    · intro hle
      simp [update_episode_count, hle, hf0]
    · intro ms out hout
      by_cases hle : f ≤ p
      · simp [update_episode_count, hle, hf0] at hout
      · simp [update_episode_count, echoApi, hle, hf0] at hout
        obtain ⟨hms, hxo⟩ := hout
        subst hxo
        exact ⟨rfl, by omega⟩
  }

/-- Witness for the amended C1: candidate episode 3 against current progress 5
in CURRENT status is refused with the not-new failure and no mutation. -/
theorem current_planning_monotone_witness :
    update_episode_count ⟨false, false, false, false, false⟩ .update echoApi
        ⟨some 2, some "x", some 5, some 12, some 3, some "CURRENT"⟩ =
      ([], .error (.not_new 3 5)) :=
  (current_planning_monotone ⟨false, false, false, false, false⟩ echoApi
    ⟨some 2, some "x", some 5, some 12, some 3, some "CURRENT"⟩ 2 5 3 rfl (Or.inl rfl)
    rfl rfl (by norm_num)).1 (by norm_num)

/-- Claim C7 counterexample: in the COMPLETED + candidate-1 + restart-enabled
scenario the engine issues exactly two mutations, but the second request
carries no status field at all (`none`), not status REPEATING. -/
theorem completed_restart_counterexample :
    (update_episode_count ⟨true, true, false, true, false⟩ .update echoApi
        ⟨some 7, some "x", some 12, some 12, some 1, some "COMPLETED"⟩).1.map
        Mutation.status =
      [some "REPEATING", none] :=
  rfl

/-- Claim C7 (amended): when the status is COMPLETED, the candidate episode is
1 and the restart capability is enabled, the engine issues exactly two
sequential mutations — first status REPEATING with progress 0, then progress 1
with no status field (the status stays REPEATING on the server) — and reports
final status REPEATING with progress 1. -/
theorem completed_restart_two_phase (cfg : Config) (info : AnimeInfo) (aid : Nat)
    (h1 : info.anime_id = some aid)
    (h2 : info.current_status = some "COMPLETED")
    (h3 : info.file_progress = some 1)
    (h4 : cfg.set_completed_to_rewatching_on_first_episode = true) :
    update_episode_count cfg .update echoApi info =
      ([⟨some aid, some 0, some "REPEATING"⟩, ⟨some aid, some 1, none⟩],
       .ok ⟨some aid, info.anime_name, some 1, info.total_episodes, some 1,
         some "REPEATING"⟩) := by
  obtain ⟨a, nm, cp, te, fp, st⟩ := info
  simp only at h1 h2 h3
  subst h1 h2 h3
  simp [update_episode_count, echoApi, h4]

/-- Witness for the amended C7 at a concrete completed entry. -/
theorem completed_restart_two_phase_witness :
    update_episode_count ⟨true, true, false, true, false⟩ .update echoApi
        ⟨some 7, some "x", some 12, some 12, some 1, some "COMPLETED"⟩ =
      ([⟨some 7, some 0, some "REPEATING"⟩, ⟨some 7, some 1, none⟩],
       .ok ⟨some 7, some "x", some 1, some 12, some 1, some "REPEATING"⟩) :=
  completed_restart_two_phase ⟨true, true, false, true, false⟩
    ⟨some 7, some "x", some 12, some 12, some 1, some "COMPLETED"⟩ 7 rfl rfl rfl rfl

end AniListUpd

namespace AniListUpd

/-- The purged cache returned by a read is exactly the filter of the stored
cache by non-expiry, whatever the lookup outcome. -/
lemma check_and_clean_cache_fst (cache : List (String × CacheEntry)) (now : Int)
    (dir_hash guessed_name : String) :
    (check_and_clean_cache cache now dir_hash guessed_name).1 =
      cache.filter fun kv => ! decide (kv.2.ttl < now) := by
  simp only [check_and_clean_cache]
  split
  · split <;> rfl
  · rfl

/-- Claim C8: on every cache read, the surviving entries are exactly those
whose expiry time has not passed, and an entry is returned exactly when it is
the (non-expired) entry stored under the directory hash and its stored
guessed name equals the current invocation's guessed name; in every other
case the read is a miss. -/
theorem cache_read_purges_and_matches (cache : List (String × CacheEntry))
    (now : Int) (dir_hash guessed_name : String) :
    (∀ kv, kv ∈ (check_and_clean_cache cache now dir_hash guessed_name).1 ↔
      kv ∈ cache ∧ ¬ kv.2.ttl < now) ∧
    (∀ e, (check_and_clean_cache cache now dir_hash guessed_name).2 = some e ↔
      ((check_and_clean_cache cache now dir_hash guessed_name).1.lookup dir_hash =
          some e ∧ e.guessed_name = guessed_name)) := by
  constructor
  · intro kv
    rw [check_and_clean_cache_fst]
    simp [List.mem_filter]
  · intro e
    rw [check_and_clean_cache_fst]
    simp only [check_and_clean_cache]
    rcases hL : (cache.filter fun kv => ! decide (kv.2.ttl < now)).lookup dir_hash
      with _ | e2
    · simp [hL]
    · by_cases hg : e2.guessed_name = guessed_name
      · simp only [hL, hg, if_pos, Option.some.injEq]
        constructor
        · rintro rfl
          exact ⟨rfl, hg⟩
        · rintro ⟨h1, _⟩
          exact h1
      · simp only [hL, hg, if_neg, Option.some.injEq]
        constructor
        · rintro h
          cases h
        · rintro ⟨h1, h2⟩
          subst h1
          exact absurd h2 hg

/-- Witness for C8: an expired entry is purged and the fresh entry under the
right directory hash with the matching guessed name is returned. -/
theorem cache_read_purges_and_matches_witness :
    (check_and_clean_cache
        [("d", ⟨"Show", some 1, some 5, 19, 7, some 12, some "CURRENT", 1000⟩),
         ("x", ⟨"Old", none, none, 0, 0, none, none, 50⟩)] 100 "d" "Show").2 =
      some ⟨"Show", some 1, some 5, 19, 7, some 12, some "CURRENT", 1000⟩ :=
  ((cache_read_purges_and_matches
      [("d", ⟨"Show", some 1, some 5, 19, 7, some 12, some "CURRENT", 1000⟩),
       ("x", ⟨"Old", none, none, 0, 0, none, none, 50⟩)] 100 "d" "Show").2
    ⟨"Show", some 1, some 5, 19, 7, some 12, some "CURRENT", 1000⟩).mpr
    ⟨by decide, rfl⟩

/-- Cache entry and oracle answers for the C2 scenario: a trusted cache entry
whose offset fast path applies, and a server that fails the update. -/
def c2Entry : CacheEntry := ⟨"Show", some 1, some 5, 19, 7, some 12, some "CURRENT", 1000⟩

/-- The fresh resolution that would be available to a retry in the C2 scenario. -/
def c2Fresh : AnimeInfo := ⟨some 1, some "Show", some 5, some 12, some 8, some "CURRENT"⟩

/-- Claim C2 counterexample: with a trusted cache entry whose fast path
applies and a server that fails the update, the invocation ends in the update
failure, performs zero full (non-cached) resolutions — even though one is
available — and leaves the cache entry in place: nothing is deleted and
nothing is retried. -/
theorem cached_update_failure_counterexample :
    (handle_filename ⟨false, false, false, false, false⟩ (some c2Fresh) (fun _ => none)
        [("d", c2Entry)] 100 "d" "Show" 20).fresh_resolutions = 0 ∧
    (handle_filename ⟨false, false, false, false, false⟩ (some c2Fresh) (fun _ => none)
        [("d", c2Entry)] 100 "d" "Show" 20).final_cache.lookup "d" = some c2Entry ∧
    (handle_filename ⟨false, false, false, false, false⟩ (some c2Fresh) (fun _ => none)
        [("d", c2Entry)] 100 "d" "Show" 20).outcome =
      .error (.update_error .update_failed) :=
  ⟨rfl, rfl, rfl⟩

/-- Claim C2 (amended): when a progress update attempted via cached data
fails, the failure propagates as the outcome of the invocation: the cache
entry is not deleted (the final cache is exactly the purged cache of the
read), no full resolution runs, and the mutations issued are exactly those of
the failed cached update. -/
theorem cached_update_failure_propagates (cfg : Config) (fr : Option AnimeInfo)
    (api : Mutation → Option SavedEntry) (cache : List (String × CacheEntry))
    (now : Int) (dir_hash guessed_name : String) (file_episode : Int)
    (entry : CacheEntry) (info : AnimeInfo) (ms : List Mutation) (e : UpdateErr)
    (h1 : (check_and_clean_cache cache now dir_hash guessed_name).2 = some entry)
    (h2 : cache_fast_path entry file_episode = some info)
    (h3 : update_episode_count cfg .update api info = (ms, .error e)) :
    handle_filename cfg fr api cache now dir_hash guessed_name file_episode =
      ⟨true, 0, ms, (check_and_clean_cache cache now dir_hash guessed_name).1,
        .error (.update_error e)⟩ := by
  simp only [handle_filename, h1, h2, h3]

/-- Witness for the amended C2, at the inputs of the counterexample. -/
theorem cached_update_failure_propagates_witness :
    handle_filename ⟨false, false, false, false, false⟩ (some c2Fresh) (fun _ => none)
        [("d", c2Entry)] 100 "d" "Show" 20 =
      ⟨true, 0, [⟨some 1, some 8, some "CURRENT"⟩], [("d", c2Entry)],
        .error (.update_error .update_failed)⟩ :=
  cached_update_failure_propagates ⟨false, false, false, false, false⟩ (some c2Fresh)
    (fun _ => none) [("d", c2Entry)] 100 "d" "Show" 20 c2Entry
    ⟨some 1, some "Show", some 5, some 12, some 8, some "CURRENT"⟩
    [⟨some 1, some 8, some "CURRENT"⟩] .update_failed rfl rfl rfl

/-- Claim C10: a trusted cache entry whose stored total episode count is null
or zero never enables the offset fast path — the range check treats the null
total as 0 and fails for every file episode — so the invocation always
performs exactly one full (non-cached) resolution. -/
theorem null_total_never_fast_path (entry : CacheEntry) (file_episode : Int)
    (h : entry.total_episodes = none ∨ entry.total_episodes = some 0) :
    cache_fast_path entry file_episode = none ∧
    ∀ (cfg : Config) (fr : Option AnimeInfo) (api : Mutation → Option SavedEntry)
      (cache : List (String × CacheEntry)) (now : Int) (dh gn : String),
      (check_and_clean_cache cache now dh gn).2 = some entry →
      (handle_filename cfg fr api cache now dh gn file_episode).used_cache_fast_path
          = false ∧
      (handle_filename cfg fr api cache now dh gn file_episode).fresh_resolutions = 1 := by
  have h0 : ((entry.total_episodes.getD 0 : Nat) : Int) = 0 := by
    rcases h with h | h <;> simp [h]
  have hfp : cache_fast_path entry file_episode = none := by
    simp only [cache_fast_path, h0]
    rw [if_neg (by omega)]
  refine ⟨hfp, ?_⟩
  intro cfg fr api cache now dh gn hent
  simp only [handle_filename, hent, hfp]
  rcases fr with _ | info
  · exact ⟨rfl, rfl⟩
  · cases hupd : (update_episode_count cfg .update api info).2
    · simp [hupd]
    · simp [hupd]
      split <;> exact ⟨rfl, rfl⟩

/-- Witness for C10: an entry with a null total is bypassed and the full
resolution runs once. -/
theorem null_total_never_fast_path_witness :
    cache_fast_path ⟨"Show", some 1, some 5, 19, 7, none, some "CURRENT", 1000⟩ 25 =
      none ∧
    (handle_filename ⟨false, false, false, false, false⟩ none (fun _ => none)
        [("d", ⟨"Show", some 1, some 5, 19, 7, none, some "CURRENT", 1000⟩)] 100 "d"
        "Show" 25).fresh_resolutions = 1 :=
  ⟨(null_total_never_fast_path ⟨"Show", some 1, some 5, 19, 7, none, some "CURRENT", 1000⟩
      25 (Or.inl rfl)).1,
   ((null_total_never_fast_path ⟨"Show", some 1, some 5, 19, 7, none, some "CURRENT", 1000⟩
      25 (Or.inl rfl)).2 ⟨false, false, false, false, false⟩ none (fun _ => none)
      [("d", ⟨"Show", some 1, some 5, 19, 7, none, some "CURRENT", 1000⟩)] 100 "d" "Show"
      rfl).2⟩

/-- Claim C9 counterexample: for a guess whose detected fields are just a
title and a year (a movie-style filename, no episode field), the source trusts
the filename's title, but the claim's trust condition — which requires the
episode field's position to be greater than 0 — does not hold. -/
theorem title_trust_counterexample :
    title_in_filename ["title", "year"] = true ∧
    ¬ claimTitleTrusted ["title", "year"] := by
  decide

/-- Claim C9 (amended): the filename's title is used as the search name iff
the guess contains a title, the episode field's position — taken as 1 when no
episode field was detected — is greater than 0, and either no season field was
detected or the season field's position is also greater than 0. -/
theorem title_trust_iff (keys : List String) :
    title_in_filename keys = true ↔ amendedTitleTrusted keys := by
  by_cases he : "episode" ∈ keys <;> by_cases hs : "season" ∈ keys <;>
    simp [title_in_filename, amendedTitleTrusted, episode_index, season_index, he, hs]

/-- Witness for the amended C9: a standard release-group / title / season /
episode ordering trusts the filename's title. -/
theorem title_trust_iff_witness :
    amendedTitleTrusted ["release_group", "title", "season", "episode"] :=
  (title_trust_iff ["release_group", "title", "season", "episode"]).mp (by decide)

end AniListUpd
